import Mathlib

/-
Verification development for the CoreGo identity layer.

The Go sources embedded here:
  auth/auth.go        (Manager, Signup, Login, GetUserByEmail)
  auth/user.go        (GetUserByID, UpdateProfile, ChangePassword, DeleteAccount)
  auth/middleware.go  (Middleware)
  auth/models (Config, User, SignupRequest, LoginRequest, UpdateProfileRequest,
               ChangePasswordRequest) with their bson/json struct tags
  database/mongodb.go (Find, FindOne, InsertOne, UpdateOne, DeleteOne semantics)

Go error values are modelled as Except String with the literal message
strings of the source.  The MongoDB store is modelled by an in-memory list
of documents of the single collection the Manager uses; the collection-name
argument is threaded through, as in the source, but the in-memory model
holds just that one collection.  Native ObjectIDs are modelled by their
24-hex-character string form; document insertion stamps a fresh generated
id, mirroring the driver-generated _id together with the id.Hex()
conversion performed at every boundary.
-/

namespace CoreGo

/-- Scalar JSON-compatible attribute values of the customAttributes bag
(map[string]interface{} in the source).  Nested arrays/objects are elided:
no embedded operation inspects the values, it stores and returns them
verbatim. -/
inductive AttrVal where
  | str (s : String)
  | num (n : Int)
  | boolean (b : Bool)
  | null
deriving DecidableEq, Repr

/-- Model of the Custom map[string]interface{} bag. -/
abbrev AttrMap := List (String × AttrVal)

/-- Model of the auth.User struct (models.go): ID, Email, Password (the
hash), Custom, CreatedAt.  time.Time is modelled as a Nat (seconds); the
zero value of time.Time is 0. -/
structure User where
  id : String
  email : String
  password : String
  custom : AttrMap
  createdAt : Nat
deriving DecidableEq, Repr

/-- Stored MongoDB document of the users collection, as written by
InsertOne from a User via its bson tags: _id (hex form), email, password,
custom, created_at. -/
structure Doc where
  id : String
  email : String
  password : String
  custom : AttrMap
  createdAt : Nat
deriving DecidableEq, Repr

/-- Model of auth.SignupRequest. -/
structure SignupRequest where
  email : String
  password : String
  custom : AttrMap
deriving DecidableEq, Repr

/-- Model of auth.LoginRequest. -/
structure LoginRequest where
  email : String
  password : String
deriving DecidableEq, Repr

/-
Token Service, modelled from the spec: the source files defining
GenerateToken/ValidateToken (the Token Service) and HashPassword /
VerifyPassword (the Credential Hasher) are not present in the repository
snapshot; only their callers are.  Per the spec, a token is three
dot-separated base64url segments header.payload.signature, the payload
carrying {subject, issuedAt, expiresAt}, the signature a keyed hash over
header and payload under the shared secret.  Since base64url encoding is a
bijection between payload contents and dot-free segment strings, the token
string is modelled by the decoded content of its three segments.
-/

/-- Claims carried by the payload segment: subject, issuedAt, expiresAt. -/
structure TokenPayload where
  subject : String
  issuedAt : Nat
  expiresAt : Nat
deriving DecidableEq, Repr

/-- Modelled from the spec: a token string, by the decoded content of its
three base64url segments: header, payload, signature. -/
structure TokenString where
  header : String
  payload : TokenPayload
  sig : Nat
deriving DecidableEq, Repr

/-- Serialization of header and payload over which the signature is
computed. -/
def signingInput (header : String) (p : TokenPayload) : String :=
  header ++ "." ++ p.subject ++ "," ++ toString p.issuedAt ++ "," ++ toString p.expiresAt

/-- Modelled from the spec: the keyed hash binding a token to the shared
secret (a concrete executable stand-in for HMAC, folded over the bytes of
secret and message, reduced mod 2^64). -/
def keyedHash (secret msg : String) : Nat :=
  (secret ++ "|" ++ msg).data.foldl (fun a c => (a * 1000003 + c.toNat) % 2 ^ 64) 5381

/-- Modelled from the spec: issue(subject, secret, expiryMinutes) at
current time now encodes {subject, issuedAt = now,
expiresAt = now + expiryMinutes minutes} and signs header+payload with the
secret. -/
def issue (subject secret : String) (expiryMinutes now : Nat) : TokenString :=
  let p : TokenPayload := ⟨subject, now, now + expiryMinutes * 60⟩
  ⟨"HS256", p, keyedHash secret (signingInput "HS256" p)⟩

/-- Modelled from the spec: validation failure cases of the Token
Service (the structurally-malformed case concerns strings outside the
image of the segment decoding and has no representative here). -/
inductive TokenErr where
  | signatureInvalid
  | expired
deriving DecidableEq, Repr

/-- Modelled from the spec: validate(token, secret) recomputes the
signature over header+payload, fails signatureInvalid on mismatch, fails
expired when now is past expiresAt, else returns the subject unchanged. -/
def validate (t : TokenString) (secret : String) (now : Nat) : Except TokenErr String :=
  if keyedHash secret (signingInput t.header t.payload) ≠ t.sig then
    .error .signatureInvalid
  else if t.payload.expiresAt < now then
    .error .expired
  else
    .ok t.payload.subject

/-
Store facade (database/mongodb.go).  The filters and updates actually
passed by the Manager are {"email": e} for Find, {"_id": objID} for
FindOne/UpdateOne/DeleteOne, and $set updates of the custom or password
field; they are modelled by these two inductives.
-/

/-- Filters the Manager passes to the store: by email (Find in
GetUserByEmail) or by _id hex (FindOne/UpdateOne/DeleteOne). -/
inductive Filter where
  | byEmail (email : String)
  | byId (idHex : String)
deriving DecidableEq, Repr

/-- Dollar-set update documents the Manager passes to UpdateOne:
{"$set": {"custom": attrs}} or {"$set": {"password": hash}}. -/
inductive Patch where
  | setCustom (attrs : AttrMap)
  | setPassword (hashed : String)
deriving DecidableEq, Repr

/-- Whether a stored document matches a filter. -/
def docMatches (f : Filter) (d : Doc) : Bool :=
  match f with
  | .byEmail e => d.email == e
  | .byId i => d.id == i

/-- Application of a $set patch to a document: the named field is replaced
wholesale. -/
def applyPatch (p : Patch) (d : Doc) : Doc :=
  match p with
  | .setCustom a => { d with custom := a }
  | .setPassword h => { d with password := h }

/-- UpdateOne semantics: the first matching document is patched; matching
nothing is not an error. -/
def updateFirst (f : Filter) (p : Patch) : List Doc → List Doc
  | [] => []
  | d :: ds => if docMatches f d then applyPatch p d :: ds else d :: updateFirst f p ds

/-- DeleteOne semantics: the first matching document is removed; matching
nothing is not an error. -/
def deleteFirst (f : Filter) : List Doc → List Doc
  | [] => []
  | d :: ds => if docMatches f d then ds else d :: deleteFirst f ds

/-- Abstract store interface, the surface of *database.MongoDB used by the
Manager.  Each operation may fail (driver/connectivity errors surface as
Go errors); mutating operations return the successor store state. -/
structure Store (σ : Type) where
  find : σ → String → Filter → Except String (List Doc)
  findOne : σ → String → Filter → Except String Doc
  insertOne : σ → String → Doc → Except String (String × σ)
  updateOne : σ → String → Filter → Patch → Except String σ
  deleteOne : σ → String → Filter → Except String σ

/-- In-memory state of the users collection: its documents in insertion
order, and the counter generating fresh ObjectIDs. -/
structure MongoState where
  docs : List Doc
  nextOid : Nat
deriving DecidableEq, Repr

/-- Hex digit character (lowercase, as primitive.ObjectID.Hex produces). -/
def hexChar (d : Nat) : Char :=
  if d < 10 then Char.ofNat (48 + d) else Char.ofNat (87 + d)

/-- Big-endian hex nibbles of n, k characters wide. -/
def hexNibbles : Nat → Nat → List Char
  | 0, _ => []
  | k + 1, n => hexNibbles k (n / 16) ++ [hexChar (n % 16)]

/-- Fresh ObjectID in hex form (24 hex characters), as insertion under a
driver-generated _id followed by .Hex() yields. -/
def oidHex (n : Nat) : String :=
  ⟨hexNibbles 24 n⟩

/-- Whether a character is an ASCII hex digit (either case), as accepted
by primitive.ObjectIDFromHex. -/
def isHexDigit (c : Char) : Bool :=
  (48 ≤ c.toNat && c.toNat ≤ 57) || (97 ≤ c.toNat && c.toNat ≤ 102) || (65 ≤ c.toNat && c.toNat ≤ 70)

/-- Validity of a user-id string for primitive.ObjectIDFromHex: exactly 24
hex characters. -/
def validObjectIdHex (s : String) : Bool :=
  s.data.length == 24 && s.data.all isHexDigit

/-- In-memory model of database/mongodb.go over the users collection.
Find filters the documents (materialized); FindOne returns the first match
or the driver's no-documents error; InsertOne stamps a fresh generated id
and appends; UpdateOne/DeleteOne affect the first match and succeed even
when nothing matched, since mongodb.go discards the result counts and
returns only the driver error. -/
def mongoModel : Store MongoState where
  find s _ f := .ok (s.docs.filter (docMatches f))
  findOne s _ f :=
    match s.docs.find? (docMatches f) with
    | some d => .ok d
    | none => .error "mongo: no documents in result"
  insertOne s _ d :=
    .ok (oidHex s.nextOid, ⟨s.docs ++ [{ d with id := oidHex s.nextOid }], s.nextOid + 1⟩)
  updateOne s _ f p := .ok ⟨updateFirst f p s.docs, s.nextOid⟩
  deleteOne s _ f := .ok ⟨deleteFirst f s.docs, s.nextOid⟩

/-
Auth Manager (auth/auth.go, auth/user.go).  The Hasher primitives
HashPassword/VerifyPassword are absent from the snapshot and are carried
as the hash/verify parameters of the Manager, per the spec's Credential
Hasher interface (hash never fails in this model; the spec reserves its
failure for internal cryptographic errors).  time.Now() is modelled by
the ambient clock field now.
-/

/-- Model of auth.Manager together with its injected collaborators:
config fields (secret, tokenExpiry, dbName), the store, the Hasher
primitives, and the ambient clock. -/
structure Manager (σ : Type) where
  secret : String
  tokenExpiry : Nat
  dbName : String
  store : Store σ
  hash : String → String
  verify : String → String → Bool
  now : Nat

/-- GenerateToken: issues a token whose subject is the user id, under the
configured secret and expiry. -/
def generateToken (m : Manager σ) (userID : String) : TokenString :=
  issue userID m.secret m.tokenExpiry m.now

/-- Manual map-to-struct conversion of GetUserByEmail (auth.go lines
122-135): starting from the zero User it copies _id (via Hex), email,
password and custom from the first returned document; created_at is never
copied, so it keeps the zero value. -/
def mapDocToUser (d : Doc) : User :=
  { id := d.id, email := d.email, password := d.password, custom := d.custom, createdAt := 0 }

/-- Decode of a document into a User via its bson tags (FindOne path of
GetUserByID): every tagged field is filled, created_at included. -/
def decodeDocToUser (d : Doc) : User :=
  { id := d.id, email := d.email, password := d.password, custom := d.custom, createdAt := d.createdAt }

/-- GetUserByEmail (auth.go): Find by email; store errors are returned
unchanged; an empty result is the error "user not found"; otherwise the
first document is converted by the manual field-by-field conversion. -/
def getUserByEmail (m : Manager σ) (s : σ) (email : String) : Except String User :=
  match m.store.find s m.dbName (.byEmail email) with
  | .error e => .error e
  | .ok users =>
    match users with
    | [] => .error "user not found"
    | u :: _ => .ok (mapDocToUser u)

/-- GetUserByID (user.go): rejects an id that is not valid ObjectID hex,
then FindOne by _id (any failure becomes "user not found"), decodes the
document and overwrites its id with the argument. -/
def getUserByID (m : Manager σ) (s : σ) (userID : String) : Except String User :=
  if !validObjectIdHex userID then .error "invalid user ID"
  else
    match m.store.findOne s m.dbName (.byId userID) with
    | .error _ => .error "user not found"
    | .ok d => .ok { decodeDocToUser d with id := userID }

/-- Signup (auth.go): validates email and password for emptiness; performs
the existence check by email, discarding the error of GetUserByEmail (the
source binds it to the blank identifier); on a found user fails with the
conflict error; otherwise hashes the password, inserts a new user document
with createdAt = now, and returns the user carrying the generated id
together with a token bound to that id.  The pair carries the resulting
store state (unchanged on every error path before the insert). -/
def signup (m : Manager σ) (s : σ) (req : SignupRequest) :
    Except String (User × TokenString) × σ :=
  if req.email = "" then (.error "email is required", s)
  else if req.password = "" then (.error "password is required", s)
  else
    match (getUserByEmail m s req.email).toOption with
    | some _ => (.error "user with this email already exists", s)
    | none =>
      let hashed := m.hash req.password
      let user : User :=
        { id := "", email := req.email, password := hashed, custom := req.custom,
          createdAt := m.now }
      match m.store.insertOne s m.dbName
          { id := "", email := req.email, password := hashed, custom := req.custom,
            createdAt := m.now } with
      | .error _ => (.error "failed to create user", s)
      | .ok (userID, s1) => (.ok ({ user with id := userID }, generateToken m userID), s1)

/-- Login (auth.go): rejects empty email or password; any failure of
GetUserByEmail becomes "invalid credentials"; a stored hash that does not
verify against the supplied password becomes the same "invalid
credentials"; on success returns the user and a token bound to its id. -/
def login (m : Manager σ) (s : σ) (req : LoginRequest) :
    Except String (User × TokenString) :=
  if req.email = "" || req.password = "" then .error "email and password are required"
  else
    match getUserByEmail m s req.email with
    | .error _ => .error "invalid credentials"
    | .ok user =>
      if !m.verify user.password req.password then .error "invalid credentials"
      else .ok (user, generateToken m user.id)

/-- UpdateProfile (user.go): rejects an invalid id; UpdateOne with a $set
of the whole custom field; on store failure "failed to update profile";
then returns the user read back by GetUserByID from the post-write
state. -/
def updateProfile (m : Manager σ) (s : σ) (userID : String) (attrs : AttrMap) :
    Except String User × σ :=
  if !validObjectIdHex userID then (.error "invalid user ID", s)
  else
    match m.store.updateOne s m.dbName (.byId userID) (.setCustom attrs) with
    | .error _ => (.error "failed to update profile", s)
    | .ok s1 => (getUserByID m s1 userID, s1)

/-- ChangePassword (user.go): loads the user by id (propagating the
failure), checks the old password against the stored hash, hashes the new
password with no emptiness check, and persists it via UpdateOne with a
$set of the password field, returning the store error unchanged. -/
def changePassword (m : Manager σ) (s : σ) (userID oldPassword newPassword : String) :
    Except String Unit × σ :=
  match getUserByID m s userID with
  | .error e => (.error e, s)
  | .ok user =>
    if !m.verify user.password oldPassword then (.error "invalid old password", s)
    else
      let hashed := m.hash newPassword
      match m.store.updateOne s m.dbName (.byId userID) (.setPassword hashed) with
      | .error e => (.error e, s)
      | .ok s1 => (.ok (), s1)

/-- DeleteAccount (user.go): rejects an invalid id; DeleteOne by _id; on
store failure "failed to delete account"; otherwise success — the deleted
count is discarded by mongodb.go, so deleting nothing is also success. -/
def deleteAccount (m : Manager σ) (s : σ) (userID : String) :
    Except String Unit × σ :=
  if !validObjectIdHex userID then (.error "invalid user ID", s)
  else
    match m.store.deleteOne s m.dbName (.byId userID) with
    | .error _ => (.error "failed to delete account", s)
    | .ok s1 => (.ok (), s1)

/-
Request Guard (auth/middleware.go).  ValidateToken operates on the raw
token string; its source is absent from the snapshot, so the middleware is
parametrized by the validator it calls, exactly at the call boundary of
the source.
-/

/-- Outcome of the middleware on one request: abort with an HTTP status
and error message, or set userID in request-scoped state and call the
next handler. -/
inductive GuardResult where
  | abort (status : Nat) (message : String)
  | proceed (userID : String)
deriving DecidableEq, Repr

/-- Semantics of strings.Split(s, sep) for a one-character separator,
over the character list of the string: empty input yields one empty
field; every separator occurrence starts a new field. -/
def splitOnChar (sep : Char) : List Char → List (List Char)
  | [] => [[]]
  | c :: rest =>
    if c = sep then [] :: splitOnChar sep rest
    else
      match splitOnChar sep rest with
      | g :: gs => (c :: g) :: gs
      | [] => [[c]]

/-- Middleware (middleware.go): an absent Authorization header (Gin's
GetHeader yields the empty string) aborts 401 with the missing-header
message; a header that does not split on spaces into exactly the two
parts Bearer and a token aborts 401 with the malformed-header message; a
token the validator rejects aborts 401 with the invalid-or-expired
message; otherwise userID is attached and the request proceeds. -/
def middleware (validateToken : String → Except String String) (authHeader : String) :
    GuardResult :=
  if authHeader = "" then .abort 401 "authorization header is required"
  else
    match splitOnChar ' ' authHeader.data with
    | [scheme, tok] =>
      if scheme = "Bearer".data then
        match validateToken ⟨tok⟩ with
        | .error _ => .abort 401 "invalid or expired token"
        | .ok userID => .proceed userID
      else .abort 401 "invalid authorization header format"
    | _ => .abort 401 "invalid authorization header format"

/-
JSON serialization of a User (encoding/json over the struct tags of
models.go).
-/

/-- JSON value of one marshalled field of the User response. -/
inductive JField where
  | str (s : String)
  | attrObj (attrs : AttrMap)
  | timestamp (t : Nat)
deriving DecidableEq, Repr

/-- Marshalled JSON object of a User, field for field from the struct
tags: ID serializes as id, Email as email, Password carries the json tag
of a dash and is never emitted, Custom serializes as custom with
omitempty (skipped when the map is empty or nil), CreatedAt as
created_at. -/
def userMarshalJSON (u : User) : List (String × JField) :=
  [("id", .str u.id), ("email", .str u.email)]
    ++ (if u.custom.isEmpty then [] else [("custom", .attrObj u.custom)])
    ++ [("created_at", .timestamp u.createdAt)]

/-
Concrete fixtures used by witnesses and counterexamples: an executable
Hasher instance satisfying the spec's verify-after-hash contract, and a
Manager wired to the in-memory store model.
-/

/-- Concrete executable Hasher stand-in used by witnesses. -/
def testHash (p : String) : String := "h:" ++ p

/-- Concrete verifier matching testHash. -/
def testVerify (hashed candidate : String) : Bool := hashed == "h:" ++ candidate

/-- Manager over the in-memory Mongo model with given Hasher, secret,
expiry and clock. -/
def mkMongoManager (hash : String → String) (verify : String → String → Bool)
    (secret : String) (tokenExpiry now : Nat) : Manager MongoState :=
  { secret := secret, tokenExpiry := tokenExpiry, dbName := "users",
    store := mongoModel, hash := hash, verify := verify, now := now }

/-- Store model whose Find fails with a connectivity error, the other
operations behaving as the in-memory model: fault-injection instance for
the error-propagation analysis. -/
def faultyFindStore (msg : String) : Store MongoState :=
  { mongoModel with find := fun _ _ _ => .error msg }

/-- Manager over the faulty-Find store. -/
def mkFaultyManager (hash : String → String) (verify : String → String → Bool)
    (secret : String) (tokenExpiry now : Nat) (msg : String) : Manager MongoState :=
  { secret := secret, tokenExpiry := tokenExpiry, dbName := "users",
    store := faultyFindStore msg, hash := hash, verify := verify, now := now }

/-- Concrete Manager used by witnesses. -/
def testMgr : Manager MongoState :=
  mkMongoManager testHash testVerify "s3cret" 60 1000

/-- A well-formed ObjectID hex string used by witnesses. -/
def oidA : String := "65f000000000000000000a01"

/-- A second well-formed ObjectID hex string matching no fixture
document. -/
def oidB : String := "65f000000000000000000b02"

/-- Fixture document: the stored record of user a@x.com with password
hash of pw, one custom attribute and a nonzero creation time. -/
def docA : Doc :=
  { id := oidA, email := "a@x.com", password := "h:pw",
    custom := [("old", .str "1")], createdAt := 777 }

/-- Fixture store state holding exactly docA. -/
def stateA : MongoState := { docs := [docA], nextOid := 5 }

/-- Empty fixture store state. -/
def stateEmpty : MongoState := { docs := [], nextOid := 0 }

/-
Shared helper lemmas.
-/

/-- Validation right after issuance succeeds with the subject, for any
expiry window: the signature recomputes identically and the clock has not
moved past expiresAt. -/
theorem validate_issue_ok (subject secret : String) (expiryMinutes now : Nat) :
    validate (issue subject secret expiryMinutes now) secret now = .ok subject := by
  simp [validate, issue]

/-- Patching a document changes neither its id nor its email, so filter
matching is preserved. -/
theorem docMatches_applyPatch (f : Filter) (p : Patch) (d : Doc) :
    docMatches f (applyPatch p d) = docMatches f d := by
  cases f <;> cases p <;> rfl

/-- After updateFirst, the first match of the same filter is the patched
form of the previous first match. -/
theorem find?_updateFirst (f : Filter) (p : Patch) (l : List Doc) (d : Doc)
    (h : l.find? (docMatches f) = some d) :
    (updateFirst f p l).find? (docMatches f) = some (applyPatch p d) := by
  induction l with
  | nil => simp [List.find?] at h
  | cons a as ih =>
    by_cases ha : docMatches f a = true
    · rw [List.find?_cons_of_pos _ ha] at h
      injection h with h
      subst h
      rw [updateFirst, if_pos ha]
      exact List.find?_cons_of_pos _ (by rw [docMatches_applyPatch]; exact ha)
    · rw [List.find?_cons_of_neg _ ha] at h
      rw [updateFirst, if_neg ha]
      rw [List.find?_cons_of_neg _ ha]
      exact ih h

/-- Every user the in-memory GetUserByEmail returns carries a zero
createdAt, because the manual conversion never copies created_at. -/
theorem mongo_getUserByEmail_createdAt (hash : String → String)
    (verify : String → String → Bool) (secret : String) (expiry now : Nat)
    (s : MongoState) (email : String) (u : User)
    (h : getUserByEmail (mkMongoManager hash verify secret expiry now) s email = .ok u) :
    u.createdAt = 0 := by
  unfold getUserByEmail at h
  simp only [mkMongoManager, mongoModel] at h
  cases hf : s.docs.filter (docMatches (.byEmail email)) with
  | nil => rw [hf] at h; exact absurd h (by simp)
  | cons a as =>
    rw [hf] at h
    simp only [Except.ok.injEq] at h
    subst h
    rfl

/-
Claim theorems.
-/

/-- C8: for every subject string, secret, and positive expiry window,
validating a token immediately after issuing it with the same secret
succeeds and returns the subject string unchanged. -/
theorem validate_issue_roundtrip (subject secret : String) (expiryMinutes now : Nat)
    (_hpos : 0 < expiryMinutes) :
    validate (issue subject secret expiryMinutes now) secret now = .ok subject :=
  validate_issue_ok subject secret expiryMinutes now

/-- Witness for C8 at a concrete subject, secret, expiry and clock. -/
theorem validate_issue_roundtrip_witness :
    0 < 60 ∧ validate (issue "user-1" "s3cret" 60 1000) "s3cret" 1000 = .ok "user-1" :=
  ⟨by decide, validate_issue_roundtrip "user-1" "s3cret" 60 1000 (by decide)⟩

/-- C6: serializing a User to its external JSON response never includes
the passwordHash: two Users differing only in the password field marshal
to identical responses. -/
theorem user_json_omits_password_hash (u : User) (h1 h2 : String) :
    userMarshalJSON { u with password := h1 } = userMarshalJSON { u with password := h2 } :=
  rfl

/-- C10: a stored user read through GetUserByEmail comes back with a zero
createdAt whatever the stored created_at is, because the map-to-struct
conversion copies id, email, password and custom but never created_at;
consequently every user Login returns also has a zero createdAt. -/
theorem getUserByEmail_zero_createdAt (hash : String → String)
    (verify : String → String → Bool) (secret : String) (expiry now : Nat)
    (s : MongoState) (email : String) (d : Doc) (rest : List Doc)
    (hfilter : s.docs.filter (docMatches (.byEmail email)) = d :: rest) :
    getUserByEmail (mkMongoManager hash verify secret expiry now) s email =
      .ok { id := d.id, email := d.email, password := d.password, custom := d.custom,
            createdAt := 0 }
    ∧ ∀ (req : LoginRequest) (u : User) (t : TokenString),
        login (mkMongoManager hash verify secret expiry now) s req = .ok (u, t) →
          u.createdAt = 0 := by
  constructor
  · simp [getUserByEmail, mkMongoManager, mongoModel, hfilter, mapDocToUser]
  · intro req u t hlogin
    unfold login at hlogin
    by_cases he : (req.email = "" || req.password = "") = true
    · rw [if_pos he] at hlogin
      exact absurd hlogin (by simp)
    · rw [if_neg he] at hlogin
      cases hg : getUserByEmail (mkMongoManager hash verify secret expiry now) s req.email with
      | error e => rw [hg] at hlogin; exact absurd hlogin (by simp)
      | ok user =>
        rw [hg] at hlogin
        simp only [mkMongoManager] at hlogin
        by_cases hv : (!verify user.password req.password) = true
        · rw [if_pos hv] at hlogin
          exact absurd hlogin (by simp)
        · rw [if_neg hv] at hlogin
          simp only [Except.ok.injEq, Prod.mk.injEq] at hlogin
          have := mongo_getUserByEmail_createdAt hash verify secret expiry now s req.email
            user hg
          rw [← hlogin.1]
          exact this

/-- Witness for C10: the fixture user is stored with created_at 777, yet
GetUserByEmail returns it with createdAt 0, and so does Login. -/
theorem getUserByEmail_zero_createdAt_witness :
    getUserByEmail testMgr stateA "a@x.com" =
      .ok { id := oidA, email := "a@x.com", password := "h:pw",
            custom := [("old", .str "1")], createdAt := 0 }
    ∧ ∀ (req : LoginRequest) (u : User) (t : TokenString),
        login testMgr stateA req = .ok (u, t) → u.createdAt = 0 :=
  getUserByEmail_zero_createdAt testHash testVerify "s3cret" 60 1000 stateA "a@x.com"
    docA [] rfl

/-- C1: for a login attempt that passes input validation, Login answers a
wrong password for an existing email and an email matching no user with
the identical error value, the AuthenticationError "invalid credentials",
so the error never reveals which factor failed. -/
theorem login_invalid_credentials_collapse (hash : String → String)
    (verify : String → String → Bool) (secret : String) (expiry now : Nat)
    (s : MongoState) (req : LoginRequest)
    (he : req.email ≠ "") (hp : req.password ≠ "")
    (hcase : (∀ d ∈ s.docs, d.email ≠ req.email) ∨
      (∃ d rest, s.docs.filter (docMatches (.byEmail req.email)) = d :: rest ∧
        verify d.password req.password = false)) :
    login (mkMongoManager hash verify secret expiry now) s req =
      .error "invalid credentials" := by
  unfold login
  rw [if_neg (by simp [he, hp])]
  rcases hcase with hno | ⟨d, rest, hfil, hver⟩
  · have hnil : s.docs.filter (docMatches (.byEmail req.email)) = [] := by
      rw [List.filter_eq_nil_iff]
      intro a ha
      simp [docMatches]
      exact hno a ha
    simp [getUserByEmail, mkMongoManager, mongoModel, hnil]
  · simp [getUserByEmail, mkMongoManager, mongoModel, hfil, mapDocToUser, hver]

/-- Witness for C1: on the fixture store, a wrong password for the
existing email and an unknown email return the identical error value. -/
theorem login_invalid_credentials_collapse_witness :
    login testMgr stateA ⟨"a@x.com", "wrongpw"⟩ = .error "invalid credentials"
    ∧ login testMgr stateA ⟨"nouser@x.com", "anything"⟩ = .error "invalid credentials" :=
  ⟨login_invalid_credentials_collapse testHash testVerify "s3cret" 60 1000 stateA
      ⟨"a@x.com", "wrongpw"⟩ (by decide) (by decide)
      (Or.inr ⟨docA, [], rfl, rfl⟩),
    login_invalid_credentials_collapse testHash testVerify "s3cret" 60 1000 stateA
      ⟨"nouser@x.com", "anything"⟩ (by decide) (by decide)
      (Or.inl (by decide))⟩

/-- C3: for an existing user id, UpdateProfile replaces the whole
customAttributes bag with the supplied one and returns the user read back
from the store after the write, so GetUserByID on the post-write state
returns a user whose custom bag equals the supplied attributes exactly. -/
theorem updateProfile_replaces_custom (hash : String → String)
    (verify : String → String → Bool) (secret : String) (expiry now : Nat)
    (s : MongoState) (uid : String) (attrs : AttrMap) (d : Doc)
    (hvalid : validObjectIdHex uid = true)
    (hfind : s.docs.find? (docMatches (.byId uid)) = some d) :
    updateProfile (mkMongoManager hash verify secret expiry now) s uid attrs =
      (.ok { id := uid, email := d.email, password := d.password, custom := attrs,
             createdAt := d.createdAt },
       ⟨updateFirst (.byId uid) (.setCustom attrs) s.docs, s.nextOid⟩)
    ∧ getUserByID (mkMongoManager hash verify secret expiry now)
        ⟨updateFirst (.byId uid) (.setCustom attrs) s.docs, s.nextOid⟩ uid =
        .ok { id := uid, email := d.email, password := d.password, custom := attrs,
              createdAt := d.createdAt } := by
  have hfind1 := find?_updateFirst (.byId uid) (.setCustom attrs) s.docs d hfind
  have hget : getUserByID (mkMongoManager hash verify secret expiry now)
      ⟨updateFirst (.byId uid) (.setCustom attrs) s.docs, s.nextOid⟩ uid =
      .ok { id := uid, email := d.email, password := d.password, custom := attrs,
            createdAt := d.createdAt } := by
    simp [getUserByID, hvalid, mkMongoManager, mongoModel, hfind1, decodeDocToUser,
      applyPatch]
  refine ⟨?_, hget⟩
  simp only [mkMongoManager, mongoModel] at hget ⊢
  simp [updateProfile, hvalid, hget]

/-- Witness for C3 on the fixture store: the stored bag with key old is
replaced wholesale by the bag with key bio. -/
theorem updateProfile_replaces_custom_witness :
    updateProfile testMgr stateA oidA [("bio", .str "x")] =
      (.ok { id := oidA, email := "a@x.com", password := "h:pw",
             custom := [("bio", .str "x")], createdAt := 777 },
       ⟨updateFirst (.byId oidA) (.setCustom [("bio", .str "x")]) stateA.docs,
        stateA.nextOid⟩)
    ∧ getUserByID testMgr
        ⟨updateFirst (.byId oidA) (.setCustom [("bio", .str "x")]) stateA.docs,
         stateA.nextOid⟩ oidA =
        .ok { id := oidA, email := "a@x.com", password := "h:pw",
              custom := [("bio", .str "x")], createdAt := 777 } :=
  updateProfile_replaces_custom testHash testVerify "s3cret" 60 1000 stateA oidA
    [("bio", .str "x")] docA (by decide) rfl

/-- C9: ChangePassword succeeds whenever the old password verifies
against the stored hash even when the new password is the empty string —
it performs no emptiness check, so the hash of the empty password is
persisted — unlike Signup, which rejects an empty password. -/
theorem changePassword_allows_empty_new_password (hash : String → String)
    (verify : String → String → Bool) (secret : String) (expiry now : Nat)
    (s : MongoState) (uid oldPassword : String) (d : Doc)
    (hvalid : validObjectIdHex uid = true)
    (hfind : s.docs.find? (docMatches (.byId uid)) = some d)
    (hver : verify d.password oldPassword = true) :
    changePassword (mkMongoManager hash verify secret expiry now) s uid oldPassword "" =
      (.ok (), ⟨updateFirst (.byId uid) (.setPassword (hash "")) s.docs, s.nextOid⟩)
    ∧ (updateFirst (.byId uid) (.setPassword (hash "")) s.docs).find?
        (docMatches (.byId uid)) = some { d with password := hash "" }
    ∧ ∀ (e : String) (attrs : AttrMap), e ≠ "" →
        signup (mkMongoManager hash verify secret expiry now) s ⟨e, "", attrs⟩ =
          (.error "password is required", s) := by
  refine ⟨?_, ?_, ?_⟩
  · simp [changePassword, getUserByID, hvalid, mkMongoManager, mongoModel, hfind,
      decodeDocToUser, hver]
  · exact find?_updateFirst (.byId uid) (.setPassword (hash "")) s.docs d hfind
  · intro e attrs hne
    simp [signup, hne]

/-- Witness for C9 on the fixture store: changing to the empty password
succeeds and persists the hash of the empty string, while signup with an
empty password errors. -/
theorem changePassword_allows_empty_new_password_witness :
    changePassword testMgr stateA oidA "pw" "" =
      (.ok (), ⟨updateFirst (.byId oidA) (.setPassword (testHash "")) stateA.docs,
                stateA.nextOid⟩)
    ∧ (updateFirst (.byId oidA) (.setPassword (testHash "")) stateA.docs).find?
        (docMatches (.byId oidA)) = some { docA with password := testHash "" }
    ∧ ∀ (e : String) (attrs : AttrMap), e ≠ "" →
        signup testMgr stateA ⟨e, "", attrs⟩ = (.error "password is required", stateA) :=
  changePassword_allows_empty_new_password testHash testVerify "s3cret" 60 1000 stateA
    oidA "pw" docA (by decide) rfl rfl

/-- Deleting with a filter nothing matches leaves the documents
unchanged. -/
theorem deleteFirst_of_no_match (f : Filter) (l : List Doc)
    (h : ∀ d ∈ l, docMatches f d = false) : deleteFirst f l = l := by
  induction l with
  | nil => rfl
  | cons a as ih =>
    rw [deleteFirst, if_neg (by simp [h a (by simp)])]
    rw [ih fun d hd => h d (by simp [hd])]

/-- C2: Signup rejects an empty email or password with the respective
validation error, fails with the conflict error and creates nothing when
a user with the same email already exists, and otherwise persists a new
user whose password field is the hash of the password and whose createdAt
is the current time, returning that user together with a token bound to
the generated id. -/
theorem signup_spec (hash : String → String) (verify : String → String → Bool)
    (secret : String) (expiry now : Nat) (s : MongoState) (req : SignupRequest) :
    (req.email = "" →
      signup (mkMongoManager hash verify secret expiry now) s req =
        (.error "email is required", s))
    ∧ (req.email ≠ "" → req.password = "" →
      signup (mkMongoManager hash verify secret expiry now) s req =
        (.error "password is required", s))
    ∧ (req.email ≠ "" → req.password ≠ "" → (∃ d ∈ s.docs, d.email = req.email) →
      signup (mkMongoManager hash verify secret expiry now) s req =
        (.error "user with this email already exists", s))
    ∧ (req.email ≠ "" → req.password ≠ "" → (∀ d ∈ s.docs, d.email ≠ req.email) →
      signup (mkMongoManager hash verify secret expiry now) s req =
        (.ok ({ id := oidHex s.nextOid, email := req.email,
                password := hash req.password, custom := req.custom, createdAt := now },
              issue (oidHex s.nextOid) secret expiry now),
         ⟨s.docs ++ [{ id := oidHex s.nextOid, email := req.email,
                       password := hash req.password, custom := req.custom,
                       createdAt := now }], s.nextOid + 1⟩)
      ∧ validate (issue (oidHex s.nextOid) secret expiry now) secret now =
          .ok (oidHex s.nextOid)) := by
  refine ⟨?_, ?_, ?_, ?_⟩
  · intro h0
    simp [signup, h0]
  · intro he hp
    simp [signup, he, hp]
  · intro he hp hex
    obtain ⟨d, hd, hde⟩ := hex
    cases hfil : s.docs.filter (docMatches (.byEmail req.email)) with
    | nil =>
      exfalso
      rw [List.filter_eq_nil_iff] at hfil
      exact hfil d hd (by simp [docMatches, hde])
    | cons u rest =>
      simp [signup, he, hp, getUserByEmail, mkMongoManager, mongoModel, hfil,
        Except.toOption]
  · intro he hp hall
    have hnil : s.docs.filter (docMatches (.byEmail req.email)) = [] := by
      rw [List.filter_eq_nil_iff]
      intro a ha
      simp [docMatches]
      exact hall a ha
    refine ⟨?_, validate_issue_ok _ _ _ _⟩
    simp [signup, he, hp, getUserByEmail, mkMongoManager, mongoModel, hnil,
      Except.toOption, generateToken]

/-- Witness for C2: the fixture email conflicts; a fresh email is
persisted with its hash and creation time and the token validates back to
the generated id. -/
theorem signup_spec_witness :
    signup testMgr stateA ⟨"a@x.com", "pw2", []⟩ =
      (.error "user with this email already exists", stateA)
    ∧ (signup testMgr stateEmpty ⟨"b@x.com", "pw", [("plan", .str "free")]⟩ =
        (.ok ({ id := oidHex 0, email := "b@x.com", password := testHash "pw",
                custom := [("plan", .str "free")], createdAt := 1000 },
              issue (oidHex 0) "s3cret" 60 1000),
         ⟨[{ id := oidHex 0, email := "b@x.com", password := testHash "pw",
             custom := [("plan", .str "free")], createdAt := 1000 }], 1⟩)
      ∧ validate (issue (oidHex 0) "s3cret" 60 1000) "s3cret" 1000 = .ok (oidHex 0)) :=
  ⟨(signup_spec testHash testVerify "s3cret" 60 1000 stateA
      ⟨"a@x.com", "pw2", []⟩).2.2.1 (by decide) (by decide) ⟨docA, by decide, rfl⟩,
    (signup_spec testHash testVerify "s3cret" 60 1000 stateEmpty
      ⟨"b@x.com", "pw", [("plan", .str "free")]⟩).2.2.2 (by decide) (by decide)
      (by decide)⟩

/-- C4 counterexample: a well-formed id matching no stored record — the
empty store with the valid 24-hex id oidB — makes DeleteAccount report
success with the store unchanged, where the claim requires a failure. -/
theorem deleteAccount_unknown_id_succeeds_cex :
    deleteAccount testMgr stateEmpty oidB = (.ok (), stateEmpty) := rfl

/-- C4 amended: DeleteAccount on a well-formed id always reports success,
removing the first matching record when one exists and silently removing
nothing when none does, because mongodb.go discards the deleted count and
only an infrastructure error can fail; a malformed id fails with the
invalid-user-ID error. -/
theorem deleteAccount_behavior (hash : String → String)
    (verify : String → String → Bool) (secret : String) (expiry now : Nat)
    (s : MongoState) (uid : String) :
    (validObjectIdHex uid = true →
      deleteAccount (mkMongoManager hash verify secret expiry now) s uid =
        (.ok (), ⟨deleteFirst (.byId uid) s.docs, s.nextOid⟩))
    ∧ (validObjectIdHex uid = false →
      deleteAccount (mkMongoManager hash verify secret expiry now) s uid =
        (.error "invalid user ID", s))
    ∧ (validObjectIdHex uid = true → (∀ d ∈ s.docs, docMatches (.byId uid) d = false) →
      deleteAccount (mkMongoManager hash verify secret expiry now) s uid =
        (.ok (), s)) := by
  refine ⟨?_, ?_, ?_⟩
  · intro hv
    simp [deleteAccount, hv, mkMongoManager, mongoModel]
  · intro hv
    simp [deleteAccount, hv]
  · intro hv hno
    simp [deleteAccount, hv, mkMongoManager, mongoModel, deleteFirst_of_no_match _ _ hno]

/-- Witness for C4 amended: the fixture record is removed under its id; a
malformed id fails; a valid unknown id reports success on the empty
store. -/
theorem deleteAccount_behavior_witness :
    deleteAccount testMgr stateA oidA = (.ok (), ⟨[], 5⟩)
    ∧ deleteAccount testMgr stateA "xyz" = (.error "invalid user ID", stateA)
    ∧ deleteAccount testMgr stateEmpty oidA = (.ok (), stateEmpty) :=
  ⟨(deleteAccount_behavior testHash testVerify "s3cret" 60 1000 stateA oidA).1
      (by decide),
    (deleteAccount_behavior testHash testVerify "s3cret" 60 1000 stateA "xyz").2.1
      (by decide),
    (deleteAccount_behavior testHash testVerify "s3cret" 60 1000 stateEmpty oidA).2.2
      (by decide) (by decide)⟩

/-- C5 counterexample: with a store whose Find fails with a connectivity
error, Signup does not return that failure — the existence-check error is
discarded — and proceeds to create the user. -/
theorem signup_swallows_find_error_cex :
    signup (mkFaultyManager testHash testVerify "s3cret" 60 1000 "store: connection failure")
        stateEmpty ⟨"a@x.com", "pw", []⟩ =
      (.ok ({ id := oidHex 0, email := "a@x.com", password := testHash "pw", custom := [],
              createdAt := 1000 }, issue (oidHex 0) "s3cret" 60 1000),
       ⟨[{ id := oidHex 0, email := "a@x.com", password := testHash "pw", custom := [],
           createdAt := 1000 }], 1⟩) := rfl

/-- C5 amended: store failures surface as typed errors — GetUserByEmail
returns the store's Find error unchanged — except inside Signup's
existence check, where the error of GetUserByEmail is bound to the blank
identifier: a store-level failure there is silently swallowed and Signup
proceeds to create the user. -/
theorem store_error_propagation_amended (hash : String → String)
    (verify : String → String → Bool) (secret : String) (expiry now : Nat)
    (msg : String) (s : MongoState) (req : SignupRequest)
    (he : req.email ≠ "") (hp : req.password ≠ "") :
    getUserByEmail (mkFaultyManager hash verify secret expiry now msg) s req.email =
      .error msg
    ∧ signup (mkFaultyManager hash verify secret expiry now msg) s req =
        (.ok ({ id := oidHex s.nextOid, email := req.email,
                password := hash req.password, custom := req.custom, createdAt := now },
              issue (oidHex s.nextOid) secret expiry now),
         ⟨s.docs ++ [{ id := oidHex s.nextOid, email := req.email,
                       password := hash req.password, custom := req.custom,
                       createdAt := now }], s.nextOid + 1⟩) := by
  constructor
  · simp [getUserByEmail, mkFaultyManager, faultyFindStore]
  · simp [signup, he, hp, getUserByEmail, mkFaultyManager, faultyFindStore, mongoModel,
      Except.toOption, generateToken]

/-- Witness for C5 amended at a concrete faulty store and request. -/
theorem store_error_propagation_amended_witness :
    getUserByEmail (mkFaultyManager testHash testVerify "s3cret" 60 1000 "timeout")
        stateA "b@y.com" = .error "timeout"
    ∧ signup (mkFaultyManager testHash testVerify "s3cret" 60 1000 "timeout") stateA
        ⟨"b@y.com", "pw9", []⟩ =
        (.ok ({ id := oidHex 5, email := "b@y.com", password := testHash "pw9",
                custom := [], createdAt := 1000 }, issue (oidHex 5) "s3cret" 60 1000),
         ⟨stateA.docs ++ [{ id := oidHex 5, email := "b@y.com",
                            password := testHash "pw9", custom := [],
                            createdAt := 1000 }], 6⟩) :=
  store_error_propagation_amended testHash testVerify "s3cret" 60 1000 "timeout" stateA
    ⟨"b@y.com", "pw9", []⟩ (by decide) (by decide)

/-- C7: the middleware aborts 401 with the missing-header message when
the Authorization header is absent, aborts 401 with the malformed-header
message when the header does not split into exactly the two parts Bearer
and a token, aborts 401 with the invalid-or-expired message when the
validator rejects the token, and otherwise attaches the resolved subject
id and lets the request proceed. -/
theorem middleware_guard_spec (vt : String → Except String String) (h : String) :
    (h = "" → middleware vt h = .abort 401 "authorization header is required")
    ∧ (∀ parts, h ≠ "" → splitOnChar ' ' h.data = parts →
        (parts.length ≠ 2 ∨ parts.head? ≠ some "Bearer".data) →
        middleware vt h = .abort 401 "invalid authorization header format")
    ∧ (∀ tok e, h ≠ "" → splitOnChar ' ' h.data = ["Bearer".data, tok] →
        vt ⟨tok⟩ = .error e →
        middleware vt h = .abort 401 "invalid or expired token")
    ∧ (∀ tok uid, h ≠ "" → splitOnChar ' ' h.data = ["Bearer".data, tok] →
        vt ⟨tok⟩ = .ok uid →
        middleware vt h = .proceed uid) := by
  refine ⟨?_, ?_, ?_, ?_⟩
  · intro h0
    simp [middleware, h0]
  · intro parts hne hsplit hbad
    unfold middleware
    rw [if_neg hne, hsplit]
    match parts, hbad with
    | [], _ => rfl
    | [a], _ => rfl
    | a :: b :: c :: rest, _ => rfl
    | [a, b], hbad =>
      have ha : a ≠ "Bearer".data := by
        rcases hbad with hlen | hhead
        · exact absurd rfl hlen
        · simpa using hhead
      simp [ha]
  · intro tok e hne hsplit hvt
    simp [middleware, hne, hsplit, hvt]
  · intro tok uid hne hsplit hvt
    simp [middleware, hne, hsplit, hvt]

/-- Concrete validator used by the middleware witness. -/
def vtTest : String → Except String String :=
  fun t => if t == "tok1" then .ok "u1" else .error "bad token"

/-- Witness for C7 at the four concrete header shapes. -/
theorem middleware_guard_spec_witness :
    middleware vtTest "" = .abort 401 "authorization header is required"
    ∧ middleware vtTest "Token abc" = .abort 401 "invalid authorization header format"
    ∧ middleware vtTest "Bearer nope" = .abort 401 "invalid or expired token"
    ∧ middleware vtTest "Bearer tok1" = .proceed "u1" :=
  ⟨(middleware_guard_spec vtTest "").1 rfl,
    (middleware_guard_spec vtTest "Token abc").2.1 ["Token".data, "abc".data]
      (by decide) rfl (Or.inr (by decide)),
    (middleware_guard_spec vtTest "Bearer nope").2.2.1 "nope".data "bad token"
      (by decide) rfl rfl,
    (middleware_guard_spec vtTest "Bearer tok1").2.2.2 "tok1".data "u1"
      (by decide) rfl rfl⟩

end CoreGo
